import Mathlib

/-!
Shallow embedding of `druide/node-rate-limiter` (lib/rate-limiter.js and the
TokenBucket it wraps), with theorems checking the natural-language spec.

Modelling conventions:
* JS numbers are modelled as rationals (`ℚ`); bucket content is genuinely
  rational because drip replenishment divides elapsed time by the interval.
* The request counter `incomingThisInterval` and its snapshot `incoming`
  only ever see `++` and `0`, so they are `ℕ`.
* `Date.now()` is passed in explicitly as a `now : ℚ` argument; a single
  method call is treated as instantaneous, so every `Date.now()` read inside
  one call (including the one inside the `getStat()` invoked for the stat
  callback) yields the same `now`.
* The optional `statCallback` observer does not touch limiter state, so it is
  modelled by a `hasStatCallback : Bool` flag plus the list of snapshots the
  call passes to the callback, returned alongside the result and next state.
-/

/-- Modelled from the spec: the `TokenBucket` class lives in
`lib/token-bucket.js`, which is not among the provided sources; its fields are
taken from spec section 3 ("TokenBucket"). -/
structure TokenBucket where
  bucketSize : ℚ
  tokensPerInterval : ℚ
  interval : ℚ
  content : ℚ
  lastDrip : ℚ
deriving Repr, DecidableEq

/-- Modelled from the spec: `TokenBucket.accept` (spec section 4.1).
1. fail fast, with no mutation, when `count > bucketSize`;
2. lazy drip: `content := min bucketSize (content + elapsed / interval *
   tokensPerInterval)`, `lastDrip := now`, performed even on rejection;
3. debit `count` and answer `true` when `content ≥ count`, else `false`. -/
def TokenBucket.accept (b : TokenBucket) (count now : ℚ) : Bool × TokenBucket :=
  if count > b.bucketSize then (false, b)
  else
    let elapsed := now - b.lastDrip
    let dripped : TokenBucket :=
      { b with
        content := min b.bucketSize (b.content + elapsed / b.interval * b.tokensPerInterval)
        lastDrip := now }
    if dripped.content ≥ count then
      (true, { dripped with content := dripped.content - count })
    else
      (false, dripped)

/-- The record returned by `RateLimiter.getStat` and handed to the stat
callback: `{accepted, incoming, averageTime, limit}`. -/
structure Stat where
  accepted : ℚ
  incoming : ℕ
  averageTime : ℤ
  limit : ℚ
deriving Repr, DecidableEq

/-- State of `RateLimiter` (lib/rate-limiter.js), field for field. -/
structure RateLimiter where
  tokenBucket : TokenBucket
  curIntervalStart : ℚ
  tokensThisInterval : ℚ
  incomingThisInterval : ℕ
  incoming : ℕ
  accepted : ℚ
  averageTime : ℤ
  hasStatCallback : Bool
  timeSum : ℚ
deriving Repr, DecidableEq

/-- `new RateLimiter(tokensPerInterval, interval, statCallback)` at time
`now`: builds a `TokenBucket(tokensPerInterval, tokensPerInterval, interval)`
(spec: bucket constructed with `content = 0`, `lastDrip = now`), then
force-fills `content = tokensPerInterval`, and zeroes all window counters. -/
def RateLimiter.construct (tokensPerInterval interval : ℚ)
    (hasStatCallback : Bool) (now : ℚ) : RateLimiter :=
  { tokenBucket :=
      { bucketSize := tokensPerInterval
        tokensPerInterval := tokensPerInterval
        interval := interval
        content := tokensPerInterval
        lastDrip := now }
    curIntervalStart := now
    tokensThisInterval := 0
    incomingThisInterval := 0
    timeSum := 0
    incoming := 0
    accepted := 0
    averageTime := 0
    hasStatCallback := hasStatCallback }

/-- `RateLimiter.getStat()` evaluated at time `now` (lib/rate-limiter.js
lines 103-114): all-zero snapshot (except `limit`) once the current window
has silently expired, otherwise the stored snapshot fields. The JS method
performs no assignment, so it is embedded as a pure function. -/
def RateLimiter.getStat (s : RateLimiter) (now : ℚ) : Stat :=
  if now - s.curIntervalStart ≥ s.tokenBucket.interval then
    { accepted := 0, incoming := 0, averageTime := 0
      limit := s.tokenBucket.tokensPerInterval }
  else
    { accepted := s.accepted, incoming := s.incoming
      averageTime := s.averageTime
      limit := s.tokenBucket.tokensPerInterval }

/-- `RateLimiter.accept(count)` at time `now` (lib/rate-limiter.js lines
54-91), statement by statement. The third component collects the snapshots
passed to the stat callback during this call. Note that the source assigns
`this.curIntervalStart = now` *before* the three `now - this.curIntervalStart
>= interval * 2` idle tests; the embedding reproduces that order exactly. -/
def RateLimiter.accept (s : RateLimiter) (count now : ℚ) :
    Bool × RateLimiter × List Stat :=
  let s0 : RateLimiter :=
    { s with incomingThisInterval := s.incomingThisInterval + 1 }
  if count > s0.tokenBucket.bucketSize then (false, s0, [])
  else
    let rolled : RateLimiter × List Stat :=
      if now - s0.curIntervalStart ≥ s0.tokenBucket.interval then
        let s1 : RateLimiter := { s0 with curIntervalStart := now }
        let s2 : RateLimiter :=
          { s1 with
            accepted :=
              if now - s1.curIntervalStart ≥ s1.tokenBucket.interval * 2
              then 0 else s1.tokensThisInterval
            incoming :=
              if now - s1.curIntervalStart ≥ s1.tokenBucket.interval * 2
              then 0 else s1.incomingThisInterval
            averageTime :=
              if now - s1.curIntervalStart ≥ s1.tokenBucket.interval * 2
              then 0
              else if s1.tokensThisInterval = 0 then 0
              else ⌊s1.timeSum / s1.tokensThisInterval⌋ }
        let s3 : RateLimiter :=
          { s2 with tokensThisInterval := 0, incomingThisInterval := 0, timeSum := 0 }
        (s3, if s3.hasStatCallback then [s3.getStat now] else [])
      else (s0, [])
    let s4 := rolled.1
    if count > s4.tokenBucket.tokensPerInterval - s4.tokensThisInterval then
      (false, s4, rolled.2)
    else
      let br := s4.tokenBucket.accept count now
      if br.1 then
        (true,
         { s4 with
            tokenBucket := br.2
            tokensThisInterval := s4.tokensThisInterval + count },
         rolled.2)
      else
        (false, { s4 with tokenBucket := br.2 }, rolled.2)

/-- `RateLimiter.addTime(time)` (lib/rate-limiter.js lines 96-98). -/
def RateLimiter.addTime (s : RateLimiter) (time : ℚ) : RateLimiter :=
  { s with timeSum := s.timeSum + time }

/-- `RateLimiter.setLimit(tokensPerInterval)` (lib/rate-limiter.js lines
120-122): one chained assignment setting both the bucket capacity and the
replenishment rate / window cap. -/
def RateLimiter.setLimit (s : RateLimiter) (tokensPerInterval : ℚ) : RateLimiter :=
  { s with
      tokenBucket :=
        { s.tokenBucket with
            bucketSize := tokensPerInterval
            tokensPerInterval := tokensPerInterval } }

/-- Run a sequence of `accept` calls, each given as a `(count, now)` pair,
threading the limiter state and discarding results and callback snapshots. -/
def runAccepts (s : RateLimiter) (calls : List (ℚ × ℚ)) : RateLimiter :=
  calls.foldl (fun t c => (t.accept c.1 c.2).2.1) s

/-- Helper: `accept` on the no-rollover path with enough window budget and
enough (replenished) bucket content returns `true` and performs exactly the
drip, the debit, and the two counter increments. -/
theorem accept_true_char (s : RateLimiter) (count now : ℚ)
    (hb : ¬ count > s.tokenBucket.bucketSize)
    (hroll : ¬ now - s.curIntervalStart ≥ s.tokenBucket.interval)
    (hwin : ¬ count > s.tokenBucket.tokensPerInterval - s.tokensThisInterval)
    (hcont : count ≤ min s.tokenBucket.bucketSize
        (s.tokenBucket.content +
          (now - s.tokenBucket.lastDrip) / s.tokenBucket.interval *
            s.tokenBucket.tokensPerInterval)) :
    s.accept count now =
      (true,
       { s with
          tokenBucket :=
            { s.tokenBucket with
               content :=
                 min s.tokenBucket.bucketSize
                   (s.tokenBucket.content +
                     (now - s.tokenBucket.lastDrip) / s.tokenBucket.interval *
                       s.tokenBucket.tokensPerInterval) - count
               lastDrip := now }
          tokensThisInterval := s.tokensThisInterval + count
          incomingThisInterval := s.incomingThisInterval + 1 },
       []) := by
  simp [RateLimiter.accept, TokenBucket.accept, hb, hroll, hwin, ge_iff_le, hcont]

/-- Helper: `accept` on the no-rollover path with insufficient window budget
returns `false` having only incremented `incomingThisInterval`. -/
theorem accept_winreject_char (s : RateLimiter) (count now : ℚ)
    (hb : ¬ count > s.tokenBucket.bucketSize)
    (hroll : ¬ now - s.curIntervalStart ≥ s.tokenBucket.interval)
    (hwin : count > s.tokenBucket.tokensPerInterval - s.tokensThisInterval) :
    s.accept count now =
      (false, { s with incomingThisInterval := s.incomingThisInterval + 1 }, []) := by
  simp [RateLimiter.accept, hb, hroll, hwin]

/-- C5: `accept(count)` with `count > bucketSize` returns `false` and the only
state change of the whole call is the unconditional `incomingThisInterval++`:
the bucket (content and drip bookkeeping included, since the limiter returns
before ever touching the bucket), `tokensThisInterval`, the public stat
fields, `curIntervalStart` and `timeSum` are all untouched, and no stat
callback fires. -/
theorem accept_structural_reject (s : RateLimiter) (count now : ℚ)
    (h : count > s.tokenBucket.bucketSize) :
    s.accept count now =
      (false, { s with incomingThisInterval := s.incomingThisInterval + 1 }, []) := by
  simp [RateLimiter.accept, h]

theorem accept_structural_reject_witness :
    (3 : ℚ) > (RateLimiter.construct 2 1000 false 0).tokenBucket.bucketSize ∧
    (RateLimiter.construct 2 1000 false 0).accept 3 0 =
      (false,
       { RateLimiter.construct 2 1000 false 0 with
          incomingThisInterval := (RateLimiter.construct 2 1000 false 0).incomingThisInterval + 1 },
       []) :=
  ⟨by norm_num [RateLimiter.construct],
   accept_structural_reject (RateLimiter.construct 2 1000 false 0) 3 0
     (by norm_num [RateLimiter.construct])⟩

/-- C10: even when the current window has already expired
(`now - curIntervalStart ≥ interval`), an oversize request (`count >
bucketSize`) returns `false` before the rollover code runs: the window does
not advance, no counter is reset, the stat snapshot is untouched, no callback
fires; only `incomingThisInterval` is incremented. -/
theorem accept_oversize_skips_rollover (s : RateLimiter) (count now : ℚ)
    (hexpired : now - s.curIntervalStart ≥ s.tokenBucket.interval)
    (h : count > s.tokenBucket.bucketSize) :
    (s.accept count now).1 = false ∧
    (s.accept count now).2.1.curIntervalStart = s.curIntervalStart ∧
    (s.accept count now).2.1.tokensThisInterval = s.tokensThisInterval ∧
    (s.accept count now).2.1.timeSum = s.timeSum ∧
    (s.accept count now).2.1.accepted = s.accepted ∧
    (s.accept count now).2.1.incoming = s.incoming ∧
    (s.accept count now).2.1.averageTime = s.averageTime ∧
    (s.accept count now).2.1.tokenBucket = s.tokenBucket ∧
    (s.accept count now).2.2 = [] ∧
    (s.accept count now).2.1.incomingThisInterval = s.incomingThisInterval + 1 := by
  simp [RateLimiter.accept, h]

theorem accept_oversize_skips_rollover_witness :
    (2000 : ℚ) - (RateLimiter.construct 1 1000 true 0).curIntervalStart ≥
        (RateLimiter.construct 1 1000 true 0).tokenBucket.interval ∧
    (2 : ℚ) > (RateLimiter.construct 1 1000 true 0).tokenBucket.bucketSize ∧
    ((RateLimiter.construct 1 1000 true 0).accept 2 2000).1 = false ∧
    ((RateLimiter.construct 1 1000 true 0).accept 2 2000).2.1.curIntervalStart =
      (RateLimiter.construct 1 1000 true 0).curIntervalStart ∧
    ((RateLimiter.construct 1 1000 true 0).accept 2 2000).2.2 = [] :=
  ⟨by norm_num [RateLimiter.construct],
   by norm_num [RateLimiter.construct],
   (accept_oversize_skips_rollover (RateLimiter.construct 1 1000 true 0) 2 2000
      (by norm_num [RateLimiter.construct]) (by norm_num [RateLimiter.construct])).1,
   (accept_oversize_skips_rollover (RateLimiter.construct 1 1000 true 0) 2 2000
      (by norm_num [RateLimiter.construct]) (by norm_num [RateLimiter.construct])).2.1,
   (accept_oversize_skips_rollover (RateLimiter.construct 1 1000 true 0) 2 2000
      (by norm_num [RateLimiter.construct]) (by norm_num [RateLimiter.construct])).2.2.2.2.2.2.2.2.1⟩

/-- C6: `getStat` at time `now` returns the all-zero snapshot (except
`limit`) once the current window has silently expired, and the stored
snapshot of the most recently completed window otherwise. It is embedded as
a pure function of the state because the source method performs no
assignment, so it mutates nothing by construction. -/
theorem getStat_cases (s : RateLimiter) (now : ℚ) :
    (now - s.curIntervalStart ≥ s.tokenBucket.interval →
      s.getStat now =
        { accepted := 0, incoming := 0, averageTime := 0
          limit := s.tokenBucket.tokensPerInterval }) ∧
    (¬ now - s.curIntervalStart ≥ s.tokenBucket.interval →
      s.getStat now =
        { accepted := s.accepted, incoming := s.incoming
          averageTime := s.averageTime
          limit := s.tokenBucket.tokensPerInterval }) := by
  constructor <;> intro h <;> simp [RateLimiter.getStat, h]

theorem getStat_cases_witness :
    ((2000 : ℚ) - (RateLimiter.construct 2 1000 false 0).curIntervalStart ≥
        (RateLimiter.construct 2 1000 false 0).tokenBucket.interval ∧
      (RateLimiter.construct 2 1000 false 0).getStat 2000 =
        { accepted := 0, incoming := 0, averageTime := 0, limit := 2 }) ∧
    (¬ (500 : ℚ) - (RateLimiter.construct 2 1000 false 0).curIntervalStart ≥
        (RateLimiter.construct 2 1000 false 0).tokenBucket.interval ∧
      (RateLimiter.construct 2 1000 false 0).getStat 500 =
        { accepted := 0, incoming := 0, averageTime := 0, limit := 2 }) :=
  ⟨⟨by norm_num [RateLimiter.construct],
    by
      have h := (getStat_cases (RateLimiter.construct 2 1000 false 0) 2000).1
        (by norm_num [RateLimiter.construct])
      simpa [RateLimiter.construct] using h⟩,
   ⟨by norm_num [RateLimiter.construct],
    by
      have h := (getStat_cases (RateLimiter.construct 2 1000 false 0) 500).2
        (by norm_num [RateLimiter.construct])
      simpa [RateLimiter.construct] using h⟩⟩

/-- C7: construction with `tokensPerInterval` and `interval` yields a bucket
with `bucketSize = tokensPerInterval` whose `content` is force-filled to
`tokensPerInterval`, zero window counters, and `curIntervalStart` equal to
the construction time; a first `accept(tokensPerInterval)` issued right at
construction time succeeds (the limiter starts hot). -/
theorem construct_state_and_first_accept (tpi ivl t : ℚ) (cb : Bool)
    (hI : 0 < ivl) :
    (RateLimiter.construct tpi ivl cb t).tokenBucket.bucketSize = tpi ∧
    (RateLimiter.construct tpi ivl cb t).tokenBucket.tokensPerInterval = tpi ∧
    (RateLimiter.construct tpi ivl cb t).tokenBucket.content = tpi ∧
    (RateLimiter.construct tpi ivl cb t).tokensThisInterval = 0 ∧
    (RateLimiter.construct tpi ivl cb t).incomingThisInterval = 0 ∧
    (RateLimiter.construct tpi ivl cb t).timeSum = 0 ∧
    (RateLimiter.construct tpi ivl cb t).curIntervalStart = t ∧
    ((RateLimiter.construct tpi ivl cb t).accept tpi t).1 = true := by
  refine ⟨rfl, rfl, rfl, rfl, rfl, rfl, rfl, ?_⟩
  simp [RateLimiter.accept, RateLimiter.construct, TokenBucket.accept,
    sub_self, hI.not_le]

theorem construct_state_and_first_accept_witness :
    (0 : ℚ) < 1000 ∧
    ((RateLimiter.construct 2 1000 false 7).tokenBucket.content = 2 ∧
     ((RateLimiter.construct 2 1000 false 7).accept 2 7).1 = true) :=
  ⟨by norm_num,
   ⟨(construct_state_and_first_accept 2 1000 7 false (by norm_num)).2.2.1,
    (construct_state_and_first_accept 2 1000 7 false (by norm_num)).2.2.2.2.2.2.2⟩⟩

/-- C8: `setLimit(v)` sets both the bucket capacity and
`tokensPerInterval` to `v` and changes nothing else. Concrete scenario C:
on a limiter built with `tokensPerInterval = 2`, `accept(3)` at t=600 fails,
but after `setLimit 5` the same call succeeds, a further `accept(2)` at
t=700 also succeeds in the same window (5 > 2 tokens granted in the current
window), and the next `accept(1)` at t=800 fails — the cap is now 5, not 2. -/
theorem setLimit_frame_and_scenarioC (s : RateLimiter) (v : ℚ) :
    ((s.setLimit v).tokenBucket.bucketSize = v ∧
     (s.setLimit v).tokenBucket.tokensPerInterval = v ∧
     (s.setLimit v).tokenBucket.interval = s.tokenBucket.interval ∧
     (s.setLimit v).tokenBucket.content = s.tokenBucket.content ∧
     (s.setLimit v).tokenBucket.lastDrip = s.tokenBucket.lastDrip ∧
     (s.setLimit v).curIntervalStart = s.curIntervalStart ∧
     (s.setLimit v).tokensThisInterval = s.tokensThisInterval ∧
     (s.setLimit v).incomingThisInterval = s.incomingThisInterval ∧
     (s.setLimit v).incoming = s.incoming ∧
     (s.setLimit v).accepted = s.accepted ∧
     (s.setLimit v).averageTime = s.averageTime ∧
     (s.setLimit v).timeSum = s.timeSum ∧
     (s.setLimit v).hasStatCallback = s.hasStatCallback) ∧
    (((RateLimiter.construct 2 1000 false 0).accept 3 600).1 = false ∧
     (((RateLimiter.construct 2 1000 false 0).setLimit 5).accept 3 600).1 = true ∧
     ((((RateLimiter.construct 2 1000 false 0).setLimit 5).accept 3 600).2.1.accept
        2 700).1 = true ∧
     (((((RateLimiter.construct 2 1000 false 0).setLimit 5).accept 3 600).2.1.accept
        2 700).2.1.accept 1 800).1 = false) := by
  refine ⟨by simp [RateLimiter.setLimit], ?_, ?_, ?_, ?_⟩ <;>
    norm_num [RateLimiter.accept, RateLimiter.construct, RateLimiter.setLimit,
      TokenBucket.accept, RateLimiter.getStat, min_def]

/-- C1: the idle-window zeroing never happens in the code. The source
assigns `this.curIntervalStart = now` before testing
`now - this.curIntervalStart >= interval * 2`, so the test compares `0`
against twice the interval and is always false. Concretely: a limiter built
at t=0 with `tokensPerInterval = 1, interval = 1000` accepts one token at
t=0, then the next call at t=5000 (more than two full idle intervals later)
snapshots `accepted = 1` and `incoming = 2` — the last active window counts,
not the zeros the spec promises. -/
theorem accept_idle_rollover_keeps_stale_counts :
    ((((RateLimiter.construct 1 1000 false 0).accept 1 0).2.1.accept
        1 5000).2.1.accepted = 1) ∧
    ((((RateLimiter.construct 1 1000 false 0).accept 1 0).2.1.accept
        1 5000).2.1.incoming = 2) := by
  norm_num [RateLimiter.accept, RateLimiter.construct, TokenBucket.accept,
    RateLimiter.getStat, min_def]

/-- Helper: a single `accept` call preserves the window-cap invariant
`tokensThisInterval ≤ tokensPerInterval` (for a nonnegative cap) and never
changes `tokensPerInterval`. -/
theorem accept_preserves_cap (s : RateLimiter) (count now : ℚ)
    (hcap : 0 ≤ s.tokenBucket.tokensPerInterval)
    (hinv : s.tokensThisInterval ≤ s.tokenBucket.tokensPerInterval) :
    (s.accept count now).2.1.tokensThisInterval ≤
        (s.accept count now).2.1.tokenBucket.tokensPerInterval ∧
    (s.accept count now).2.1.tokenBucket.tokensPerInterval =
        s.tokenBucket.tokensPerInterval := by
  simp only [RateLimiter.accept]
  by_cases h1 : count > s.tokenBucket.bucketSize
  · simp [h1, hinv]
  · simp only [h1, if_false]
    by_cases h2 : now - s.curIntervalStart ≥ s.tokenBucket.interval
    · simp only [h2, if_true, ite_true, TokenBucket.accept, h1, if_false, sub_zero]
      by_cases h3 : count > s.tokenBucket.tokensPerInterval
      · simp [h3, hcap]
      · simp only [h3, if_false, ite_false]
        by_cases h4 : s.tokenBucket.bucketSize ⊓
            (s.tokenBucket.content +
              (now - s.tokenBucket.lastDrip) / s.tokenBucket.interval *
                s.tokenBucket.tokensPerInterval) ≥ count
        · simp only [h4, if_true, ite_true]
          have hc := not_lt.mp h3
          exact ⟨by linarith, trivial⟩
        · simp [h4, hcap]
    · simp only [h2, if_false, ite_false]
      by_cases h3 : count > s.tokenBucket.tokensPerInterval - s.tokensThisInterval
      · simp [h3, hinv]
      · simp only [h3, if_false, ite_false, TokenBucket.accept, h1]
        by_cases h4 : s.tokenBucket.bucketSize ⊓
            (s.tokenBucket.content +
              (now - s.tokenBucket.lastDrip) / s.tokenBucket.interval *
                s.tokenBucket.tokensPerInterval) ≥ count
        · simp only [h4, if_true, ite_true]
          have hc := not_lt.mp h3
          exact ⟨by linarith, trivial⟩
        · simp [h4, hinv]

/-- C2 (amended): across any sequence of `accept` calls, the window-cap
invariant `tokensThisInterval ≤ tokensPerInterval` holds at every
observation point, given a nonnegative cap; `tokensThisInterval` is the
running sum of the accepted counts of the current window, so no window ever
grants more than `tokensPerInterval` tokens through `accept` alone. The
original claim extended the invariant across `setLimit`, which the
counterexample below refutes. -/
theorem runAccepts_cap (s : RateLimiter) (calls : List (ℚ × ℚ))
    (hcap : 0 ≤ s.tokenBucket.tokensPerInterval)
    (hinv : s.tokensThisInterval ≤ s.tokenBucket.tokensPerInterval) :
    (runAccepts s calls).tokensThisInterval ≤
      (runAccepts s calls).tokenBucket.tokensPerInterval := by
  induction calls generalizing s with
  | nil => exact hinv
  | cons c rest ih =>
      have h := accept_preserves_cap s c.1 c.2 hcap hinv
      simpa [runAccepts] using ih _ (h.2 ▸ hcap) h.1

theorem runAccepts_cap_witness :
    (0 : ℚ) ≤ (RateLimiter.construct 2 1000 false 0).tokenBucket.tokensPerInterval ∧
    (RateLimiter.construct 2 1000 false 0).tokensThisInterval ≤
      (RateLimiter.construct 2 1000 false 0).tokenBucket.tokensPerInterval ∧
    (runAccepts (RateLimiter.construct 2 1000 false 0)
        [(1, 0), (1, 50), (1, 80)]).tokensThisInterval ≤
      (runAccepts (RateLimiter.construct 2 1000 false 0)
        [(1, 0), (1, 50), (1, 80)]).tokenBucket.tokensPerInterval :=
  ⟨by norm_num [RateLimiter.construct],
   by norm_num [RateLimiter.construct],
   runAccepts_cap (RateLimiter.construct 2 1000 false 0) [(1, 0), (1, 50), (1, 80)]
     (by norm_num [RateLimiter.construct]) (by norm_num [RateLimiter.construct])⟩

/-- C2 (counterexample): the invariant does not survive `setLimit`. A
limiter built with `tokensPerInterval = 5` accepts 5 tokens at t=0; a
subsequent `setLimit 2` leaves `tokensThisInterval = 5` above the new cap
`tokensPerInterval = 2`, so `tokensThisInterval ≤ tokensPerInterval` is
false at that observation point. -/
theorem setLimit_breaks_cap_invariant :
    ¬ ((((RateLimiter.construct 5 1000 false 0).accept 5 0).2.1.setLimit
          2).tokensThisInterval ≤
        (((RateLimiter.construct 5 1000 false 0).accept 5 0).2.1.setLimit
          2).tokenBucket.tokensPerInterval) := by
  norm_num [RateLimiter.accept, RateLimiter.construct, TokenBucket.accept,
    RateLimiter.setLimit, RateLimiter.getStat, min_def]

/-- C9: assuming a non-decreasing clock (`curIntervalStart ≤ now` at call
time), `accept` never moves `curIntervalStart` backward, and it changes it
only when the elapsed time reached the interval, in which case the new value
is the current timestamp; `addTime` and `setLimit` never change it, and
`getStat` is a pure function in this embedding, so it changes nothing. -/
theorem curIntervalStart_forward_only (s : RateLimiter) (count now t v : ℚ)
    (hclk : s.curIntervalStart ≤ now) :
    s.curIntervalStart ≤ (s.accept count now).2.1.curIntervalStart ∧
    ((s.accept count now).2.1.curIntervalStart = s.curIntervalStart ∨
      (now - s.curIntervalStart ≥ s.tokenBucket.interval ∧
        (s.accept count now).2.1.curIntervalStart = now)) ∧
    (s.addTime t).curIntervalStart = s.curIntervalStart ∧
    (s.setLimit v).curIntervalStart = s.curIntervalStart := by
  have key : (s.accept count now).2.1.curIntervalStart = s.curIntervalStart ∨
      (now - s.curIntervalStart ≥ s.tokenBucket.interval ∧
        (s.accept count now).2.1.curIntervalStart = now) := by
    simp only [RateLimiter.accept, TokenBucket.accept]
    by_cases h1 : count > s.tokenBucket.bucketSize
    · simp [h1]
    · simp only [h1, if_false]
      by_cases h2 : now - s.curIntervalStart ≥ s.tokenBucket.interval
      · refine Or.inr ⟨h2, ?_⟩
        simp only [h2, if_true, ite_true]
        split_ifs <;> rfl
      · refine Or.inl ?_
        simp only [h2, if_false, ite_false]
        split_ifs <;> rfl
  refine ⟨?_, key, rfl, rfl⟩
  rcases key with hk | hk
  · rw [hk]
  · rw [hk.2]; exact hclk

theorem curIntervalStart_forward_only_witness :
    (RateLimiter.construct 2 1000 false 0).curIntervalStart ≤ (500 : ℚ) ∧
    (RateLimiter.construct 2 1000 false 0).curIntervalStart ≤
      ((RateLimiter.construct 2 1000 false 0).accept 1 500).2.1.curIntervalStart :=
  ⟨by norm_num [RateLimiter.construct],
   (curIntervalStart_forward_only (RateLimiter.construct 2 1000 false 0) 1 500 3 4
      (by norm_num [RateLimiter.construct])).1⟩

/-- C4: an `accept` call that triggers rollover (elapsed ≥ interval and
`count ≤ bucketSize`, positive interval) snapshots the just-ended window
counters into the public fields — `accepted` from `tokensThisInterval`,
`incoming` from `incomingThisInterval` (whose value at rollover time already
includes the unconditional increment performed by this very call),
`averageTime` as the floor of `timeSum / tokensThisInterval` or zero when no
token was accepted — resets the three window counters (by the end of the
call `tokensThisInterval` holds just the accepted count of this call, if
any), and passes exactly that snapshot, with `limit = tokensPerInterval`,
to the stat callback exactly once when one is registered. -/
theorem accept_rollover_snapshot (s : RateLimiter) (count now : ℚ)
    (hroll : now - s.curIntervalStart ≥ s.tokenBucket.interval)
    (hb : ¬ count > s.tokenBucket.bucketSize)
    (hI : 0 < s.tokenBucket.interval) :
    (s.accept count now).2.1.accepted = s.tokensThisInterval ∧
    (s.accept count now).2.1.incoming = s.incomingThisInterval + 1 ∧
    (s.accept count now).2.1.averageTime =
      (if s.tokensThisInterval = 0 then 0 else ⌊s.timeSum / s.tokensThisInterval⌋) ∧
    (s.accept count now).2.1.incomingThisInterval = 0 ∧
    (s.accept count now).2.1.timeSum = 0 ∧
    (s.accept count now).2.1.tokensThisInterval =
      (if (s.accept count now).1 then count else 0) ∧
    (s.accept count now).2.2 =
      (if s.hasStatCallback then
        [{ accepted := s.tokensThisInterval
           incoming := s.incomingThisInterval + 1
           averageTime :=
             (if s.tokensThisInterval = 0 then 0 else ⌊s.timeSum / s.tokensThisInterval⌋)
           limit := s.tokenBucket.tokensPerInterval }]
       else []) := by
  have hidle : ¬ s.tokenBucket.interval * 2 ≤ 0 := not_le.mpr (by linarith)
  have hgs : ¬ s.tokenBucket.interval ≤ 0 := not_le.mpr hI
  simp only [RateLimiter.accept, TokenBucket.accept, RateLimiter.getStat, hb,
    if_false, hroll, if_true, ite_true, sub_self, ge_iff_le, hidle, ite_false,
    hgs, sub_zero]
  by_cases h3 : count > s.tokenBucket.tokensPerInterval
  · simp [h3]
  · simp only [gt_iff_lt, not_lt] at h3
    simp only [h3, gt_iff_lt, not_lt.mpr h3, if_false, ite_false]
    by_cases h4 : s.tokenBucket.bucketSize ⊓
        (s.tokenBucket.content +
          (now - s.tokenBucket.lastDrip) / s.tokenBucket.interval *
            s.tokenBucket.tokensPerInterval) ≥ count
    · simp [h4]
    · simp [h4]

theorem accept_rollover_snapshot_witness :
    ((1500 : ℚ) - (RateLimiter.construct 2 1000 true 0).curIntervalStart ≥
        (RateLimiter.construct 2 1000 true 0).tokenBucket.interval ∧
     ¬ (1 : ℚ) > (RateLimiter.construct 2 1000 true 0).tokenBucket.bucketSize ∧
     (0 : ℚ) < (RateLimiter.construct 2 1000 true 0).tokenBucket.interval) ∧
    ((RateLimiter.construct 2 1000 true 0).accept 1 1500).2.1.incomingThisInterval = 0 ∧
    ((RateLimiter.construct 2 1000 true 0).accept 1 1500).2.2 =
      [{ accepted := 0, incoming := 1, averageTime := 0, limit := 2 }] := by
  refine ⟨⟨by norm_num [RateLimiter.construct], by norm_num [RateLimiter.construct],
    by norm_num [RateLimiter.construct]⟩, ?_, ?_⟩
  · exact (accept_rollover_snapshot (RateLimiter.construct 2 1000 true 0) 1 1500
      (by norm_num [RateLimiter.construct]) (by norm_num [RateLimiter.construct])
      (by norm_num [RateLimiter.construct])).2.2.2.1
  · have h := (accept_rollover_snapshot (RateLimiter.construct 2 1000 true 0) 1 1500
      (by norm_num [RateLimiter.construct]) (by norm_num [RateLimiter.construct])
      (by norm_num [RateLimiter.construct])).2.2.2.2.2.2
    simpa [RateLimiter.construct] using h

/-- C3: a limiter with `tokensPerInterval = 2, interval = 1000` built at
t=0, receiving `accept(1)` three times at any non-decreasing instants within
the first 100 ms, answers `true`, `true`, `false`: the third call is stopped
by the exhausted window cap even though the bucket replenished slightly. -/
theorem scenarioB_accepts (t1 t2 t3 : ℚ)
    (h0 : 0 ≤ t1) (h12 : t1 ≤ t2) (h23 : t2 ≤ t3) (h100 : t3 ≤ 100) :
    (((RateLimiter.construct 2 1000 false 0).accept 1 t1).1 = true) ∧
    ((((RateLimiter.construct 2 1000 false 0).accept 1 t1).2.1.accept 1 t2).1 =
      true) ∧
    (((((RateLimiter.construct 2 1000 false 0).accept 1 t1).2.1.accept
        1 t2).2.1.accept 1 t3).1 = false) := by
  have ha : ¬ ((1000:ℚ) ≤ t1) := not_le.mpr (by linarith)
  have hbb : ¬ ((1000:ℚ) ≤ t2) := not_le.mpr (by linarith)
  have hcc : ¬ ((1000:ℚ) ≤ t3) := not_le.mpr (by linarith)
  have h1 : (1:ℚ) ≤ 2 + t1 / 1000 * 2 := by linarith
  have hm : (2:ℚ) ⊓ (2 + t1 / 1000 * 2) = 2 := min_eq_left (by linarith)
  have h2 : (1:ℚ) ≤ 2 ⊓ (2 + t1 / 1000 * 2) - 1 + (t2 - t1) / 1000 * 2 := by
    rw [hm]; linarith
  refine ⟨?_, ?_, ?_⟩ <;>
    norm_num [RateLimiter.accept, TokenBucket.accept, RateLimiter.construct,
      ha, hbb, hcc, h1, h2]

theorem scenarioB_accepts_witness :
    ((0:ℚ) ≤ 0 ∧ (0:ℚ) ≤ 50 ∧ (50:ℚ) ≤ 80 ∧ (80:ℚ) ≤ 100) ∧
    ((((RateLimiter.construct 2 1000 false 0).accept 1 0).1 = true) ∧
     ((((RateLimiter.construct 2 1000 false 0).accept 1 0).2.1.accept 1 50).1 =
       true) ∧
     (((((RateLimiter.construct 2 1000 false 0).accept 1 0).2.1.accept
         1 50).2.1.accept 1 80).1 = false)) :=
  ⟨by norm_num,
   scenarioB_accepts 0 50 80 (by norm_num) (by norm_num) (by norm_num) (by norm_num)⟩
